import Mathlib

/-!
Verification development for the MANGESTIC CTF backend (src/main.py, src/schemas.py).

The development shallowly embeds the hashing utility, the HTTP endpoint handlers
and the document-store state. Machine words are `Nat` reduced modulo `2 ^ 32`
where the hash algorithm requires it. The document store (`database.py`, which
only exists through its import in `src/main.py`) is modelled from the spec's
Document Store Adapter contract: collections are lists of documents, `create`
appends a document carrying a store-generated identifier, `find_one` returns the
first match, `find_many` returns up to `limit` matches in store order. Store
failures are injected through explicit boolean flags, one per store call site;
an uncaught exception in a handler surfaces as a generic internal error, a
caught one follows the handler's `except` branch.
-/

/-! ## Hashing utility: SHA-256 (from `sha256` in src/main.py, lines 44-45) -/

def n32 : Nat := 4294967296

def add32 (a b : Nat) : Nat := (a + b) % n32

def rotr (r n : Nat) : Nat := ((n >>> r) ||| (n <<< (32 - r))) % n32

def xor3 (a b c : Nat) : Nat := (a ^^^ b) ^^^ c

def not32 (n : Nat) : Nat := 4294967295 ^^^ n

def smallSigma0 (w : Nat) : Nat := xor3 (rotr 7 w) (rotr 18 w) (w >>> 3)

def smallSigma1 (w : Nat) : Nat := xor3 (rotr 17 w) (rotr 19 w) (w >>> 10)

def bigSigma0 (a : Nat) : Nat := xor3 (rotr 2 a) (rotr 13 a) (rotr 22 a)

def bigSigma1 (e : Nat) : Nat := xor3 (rotr 6 e) (rotr 11 e) (rotr 25 e)

def chFn (e f g : Nat) : Nat := (e &&& f) ^^^ (not32 e &&& g)

def majFn (a b c : Nat) : Nat := ((a &&& b) ^^^ (a &&& c)) ^^^ (b &&& c)

/-- UTF-8 encoding of one Unicode code point, as Python `str.encode()` does per
character. -/
def utf8Bytes (c : Nat) : List Nat :=
  if c < 128 then [c]
  else if c < 2048 then [192 ||| (c >>> 6), 128 ||| (c &&& 63)]
  else if c < 65536 then
    [224 ||| (c >>> 12), 128 ||| ((c >>> 6) &&& 63), 128 ||| (c &&& 63)]
  else
    [240 ||| (c >>> 18), 128 ||| ((c >>> 12) &&& 63),
     128 ||| ((c >>> 6) &&& 63), 128 ||| (c &&& 63)]

def toBytesBE : Nat → Nat → List Nat
  | 0, _ => []
  | k + 1, n => toBytesBE k (n >>> 8) ++ [n % 256]

/-- Append the 0x80 marker byte, zero padding up to 56 mod 64, and the 64-bit
big-endian bit length. -/
def padMessage (msg : List Nat) : List Nat :=
  let padZeros := (119 - msg.length % 64) % 64
  msg ++ [128] ++ List.replicate padZeros 0 ++ toBytesBE 8 (8 * msg.length)

def bytesToWords : List Nat → List Nat
  | a :: b :: c :: d :: rest => (((a * 256 + b) * 256 + c) * 256 + d) :: bytesToWords rest
  | _ => []

def chunkifyAux : Nat → List Nat → List (List Nat)
  | 0, _ => []
  | _ + 1, [] => []
  | k + 1, ws => ws.take 16 :: chunkifyAux k (ws.drop 16)

def chunkify (ws : List Nat) : List (List Nat) := chunkifyAux ws.length ws

/-- Extend a 16-word chunk by `fuel` words of message schedule. -/
def extendSchedule : Nat → List Nat → List Nat
  | 0, w => w
  | k + 1, w =>
    let n := w.length
    let nw := add32 (add32 (w.getD (n - 16) 0) (smallSigma0 (w.getD (n - 15) 0)))
                    (add32 (w.getD (n - 7) 0) (smallSigma1 (w.getD (n - 2) 0)))
    extendSchedule k (w ++ [nw])

structure Hash8 where
  a : Nat
  b : Nat
  c : Nat
  d : Nat
  e : Nat
  f : Nat
  g : Nat
  h : Nat
deriving Repr, DecidableEq

def roundK : List Nat :=
  [1116352408, 1899447441, 3049323471, 3921009573,
   961987163, 1508970993, 2453635748, 2870763221,
   3624381080, 310598401, 607225278, 1426881987,
   1925078388, 2162078206, 2614888103, 3248222580,
   3835390401, 4022224774, 264347078, 604807628,
   770255983, 1249150122, 1555081692, 1996064986,
   2554220882, 2821834349, 2952996808, 3210313671,
   3336571891, 3584528711, 113926993, 338241895,
   666307205, 773529912, 1294757372, 1396182291,
   1695183700, 1986661051, 2177026350, 2456956037,
   2730485921, 2820302411, 3259730800, 3345764771,
   3516065817, 3600352804, 4094571909, 275423344,
   430227734, 506948616, 659060556, 883997877,
   958139571, 1322822218, 1537002063, 1747873779,
   1955562222, 2024104815, 2227730452, 2361852424,
   2428436474, 2756734187, 3204031479, 3329325298]

def compressRound (s : Hash8) (kw : Nat × Nat) : Hash8 :=
  let t1 := add32 s.h (add32 (bigSigma1 s.e) (add32 (chFn s.e s.f s.g) (add32 kw.1 kw.2)))
  let t2 := add32 (bigSigma0 s.a) (majFn s.a s.b s.c)
  ⟨add32 t1 t2, s.a, s.b, s.c, add32 s.d t1, s.e, s.f, s.g⟩

def compressChunk (s : Hash8) (chunk : List Nat) : Hash8 :=
  let w := extendSchedule 48 chunk
  let t := (roundK.zip w).foldl compressRound s
  ⟨add32 s.a t.a, add32 s.b t.b, add32 s.c t.c, add32 s.d t.d,
   add32 s.e t.e, add32 s.f t.f, add32 s.g t.g, add32 s.h t.h⟩

def initH : Hash8 :=
  ⟨1779033703, 3144134277, 1013904242, 2773480762,
   1359893119, 2600822924, 528734635, 1541459225⟩

def hexDigit (n : Nat) : Char :=
  if n < 10 then Char.ofNat (48 + n) else Char.ofNat (87 + n)

def toHexFixed : Nat → Nat → List Char
  | 0, _ => []
  | k + 1, n => toHexFixed k (n >>> 4) ++ [hexDigit (n % 16)]

/-- Embedding of `sha256` from src/main.py: the lowercase hex digest of the
SHA-256 hash of the UTF-8 encoding of `text`, exactly as
`hashlib.sha256(text.encode()).hexdigest()` computes it. -/
def sha256 (text : String) : String :=
  let bytes := (text.data.map Char.toNat).flatMap utf8Bytes
  let t := (chunkify (bytesToWords (padMessage bytes))).foldl compressChunk initH
  String.mk (([t.a, t.b, t.c, t.d, t.e, t.f, t.g, t.h].map (toHexFixed 8)).flatten)

/-- Lowercase hexadecimal digit predicate, for the shape of digests. -/
def isLowerHexDigit (c : Char) : Bool :=
  c.isDigit || (97 ≤ c.toNat && c.toNat ≤ 102)

theorem toHexFixed_length (k : Nat) : ∀ n : Nat, (toHexFixed k n).length = k := by
  induction k with
  | zero => intro n; rfl
  | succ k ih => intro n; simp [toHexFixed, ih]

theorem hexDigit_isHex : ∀ n < 16, isLowerHexDigit (hexDigit n) = true := by decide

theorem toHexFixed_hex (k : Nat) :
    ∀ n : Nat, ∀ c ∈ toHexFixed k n, isLowerHexDigit c = true := by
  induction k with
  | zero => intro n c hc; simp [toHexFixed] at hc
  | succ k ih =>
    intro n c hc
    simp only [toHexFixed, List.mem_append, List.mem_singleton] at hc
    rcases hc with h | h
    · exact ih _ c h
    · subst h; exact hexDigit_isHex _ (Nat.mod_lt _ (by omega))

theorem sha256_length (s : String) : (sha256 s).length = 64 := by
  simp [sha256, String.length, toHexFixed_length]

theorem sha256_chars_hex (s : String) :
    ∀ c ∈ (sha256 s).data, isLowerHexDigit c = true := by
  intro c hc
  simp only [sha256, String.mk, List.map, List.flatten, List.append_nil,
    List.mem_append] at hc
  rcases hc with h | h | h | h | h | h | h | h <;> exact toHexFixed_hex 8 _ c h

/-! ## Document model

Stored documents are schemaless (the store is a document database), so every
Challenge field other than the store identifier is optional: `src/main.py` reads
them with `dict.get` defaults. Documents created through the endpoints always
carry all schema fields. The `oid` field embeds the Mongo `_id`, kept in its
canonical string form (24 lowercase hex characters, as `str(ObjectId)` yields).
-/

structure UserDoc where
  oid : String
  username : String
  email : String
  password_hash : String
  bio : Option String
  avatar_url : Option String
deriving Repr, DecidableEq

structure ChallengeDoc where
  oid : String
  title : Option String
  description : Option String
  flag_hash : Option String
  points : Option Int
  author : Option String
  tags : Option (List String)
  is_active : Option Bool
deriving Repr, DecidableEq

structure SolveDoc where
  oid : String
  challenge_id : String
  username : String
  points : Int
deriving Repr, DecidableEq

/-- Modelled from the spec: the Document Store Adapter (the `database` module is
not under src/) holds three logical collections of JSON-like documents; `create`
assigns a store-generated identifier and persists the record. The state carries
a counter from which fresh identifiers are minted. -/
structure DB where
  nextOid : Nat
  user : List UserDoc
  challenge : List ChallengeDoc
  solve : List SolveDoc
deriving Repr, DecidableEq

/-- Store-generated identifier: the canonical 24-hex-character string form. -/
def freshOid (n : Nat) : String := String.mk (toHexFixed 24 n)

/-- Modelled from the spec: `find_one(collection, filter)` of the Document Store
Adapter returns the first matching document or an absence signal. -/
def find_one {α : Type} (l : List α) (p : α → Bool) : Option α := l.find? p

/-- Modelled from the spec: `find_many(collection, filter, limit)` of the
Document Store Adapter (imported as `get_documents` in src/main.py) returns up
to `limit` matching documents in store order. -/
def get_documents {α : Type} (l : List α) (p : α → Bool) (limit : Nat) : List α :=
  (l.filter p).take limit

/-- Hexadecimal character test, as `bytes.fromhex` accepts either case. -/
def isHexChar (c : Char) : Bool :=
  c.isDigit || (97 ≤ c.toNat && c.toNat ≤ 102) || (65 ≤ c.toNat && c.toNat ≤ 70)

def lowerHexChar (c : Char) : Char :=
  if 65 ≤ c.toNat && c.toNat ≤ 70 then Char.ofNat (c.toNat + 32) else c

/-- Embedding of `bson.ObjectId(s)` applied to a string: it succeeds exactly on
24-character hexadecimal strings and its canonical string form is lowercase;
anything else raises `InvalidId`. -/
def parseObjectId (s : String) : Option String :=
  if s.length == 24 && s.data.all isHexChar then
    some (String.mk (s.data.map lowerHexChar))
  else none

/-! ## Request and response shapes (pydantic models and handler return dicts)

`EmailStr` format validation happens while FastAPI parses the request body,
before the handler runs, so the embedded request type carries the email as a
plain string. A request value stands for a body that passed that validation.
-/

structure RegisterRequest where
  username : String
  email : String
  password : String
deriving Repr, DecidableEq

structure LoginRequest where
  username : String
  password : String
deriving Repr, DecidableEq

structure SubmitChallengeRequest where
  title : String
  description : String
  flag : String
  points : Int
  tags : Option (List String)
deriving Repr, DecidableEq

structure SubmitFlagRequest where
  challenge_id : String
  flag : String
deriving Repr, DecidableEq

/-- Failure of a handler: `http` is a raised `HTTPException` with its status
code and detail; `internal` is any other uncaught exception, which FastAPI
turns into a generic 500 internal server error. -/
inductive HError where
  | http (status : Nat) (detail : String)
  | internal (msg : String)
deriving Repr, DecidableEq

structure RegisterResp where
  ok : Bool
  user_id : String
deriving Repr, DecidableEq

structure LoginResp where
  ok : Bool
  username : String
deriving Repr, DecidableEq

structure ContributeResp where
  ok : Bool
  challenge_id : String
deriving Repr, DecidableEq

structure ListResp where
  ok : Bool
  items : List ChallengeDoc
deriving Repr, DecidableEq

structure SubmitResp where
  ok : Bool
  message : String
deriving Repr, DecidableEq

structure LBItem where
  username : String
  score : Int
deriving Repr, DecidableEq

structure LBResp where
  ok : Bool
  items : List LBItem
deriving Repr, DecidableEq

/-! ## Endpoint handlers (src/main.py)

Each handler is embedded as a function from the request payload and the store
state to a result and the new store state. Every store call site carries an
explicit boolean fault flag: `true` means the underlying store raises at that
call. A raised store error that the handler does not catch becomes
`HError.internal` (FastAPI's generic 500); `submit_flag` catches the one around
its challenge lookup inside its `try` block.
-/

/-- Embedding of `register` (src/main.py lines 83-98). `fFind` and `fCreate`
are fault flags for the `find_one` and `create_document` store calls. -/
def registerF (fFind fCreate : Bool) (p : RegisterRequest) (st : DB) :
    Except HError RegisterResp × DB :=
  if fFind then (Except.error (HError.internal "store failure"), st) else
  match find_one st.user (fun u => u.username == p.username || u.email == p.email) with
  | some _ => (Except.error (HError.http 400 "Username or email already exists"), st)
  | none =>
    if fCreate then (Except.error (HError.internal "store failure"), st) else
    let oid := freshOid st.nextOid
    let u : UserDoc := { oid := oid, username := p.username, email := p.email,
                         password_hash := sha256 p.password, bio := none, avatar_url := none }
    (Except.ok { ok := true, user_id := oid },
     { st with nextOid := st.nextOid + 1, user := st.user ++ [u] })

/-- Embedding of `login` (src/main.py lines 101-107). -/
def loginF (fFind : Bool) (p : LoginRequest) (st : DB) :
    Except HError LoginResp × DB :=
  if fFind then (Except.error (HError.internal "store failure"), st) else
  match find_one st.user
      (fun u => u.username == p.username && u.password_hash == sha256 p.password) with
  | none => (Except.error (HError.http 401 "Invalid credentials"), st)
  | some u => (Except.ok { ok := true, username := u.username }, st)

/-- Embedding of `contribute_challenge` (src/main.py lines 111-123). The
`ChallengeSchema` constructor validates `points ≥ 0` (schemas.py line 25) and
raises a pydantic `ValidationError` otherwise, which the handler does not
catch. -/
def contributeF (fCreate : Bool) (p : SubmitChallengeRequest) (st : DB) :
    Except HError ContributeResp × DB :=
  if p.points < 0 then (Except.error (HError.internal "Challenge validation failed"), st) else
  if fCreate then (Except.error (HError.internal "store failure"), st) else
  let oid := freshOid st.nextOid
  let c : ChallengeDoc := { oid := oid, title := some p.title, description := some p.description,
                            flag_hash := some (sha256 p.flag), points := some p.points,
                            author := some "anonymous", tags := p.tags, is_active := some true }
  (Except.ok { ok := true, challenge_id := oid },
   { st with nextOid := st.nextOid + 1, challenge := st.challenge ++ [c] })

/-- Embedding of `list_challenges` (src/main.py lines 126-132). The handler
stringifies `_id` (the identity on the embedded canonical form) and pops
`flag_hash` from every returned item, embedded as setting the optional field to
`none`. -/
def listChallengesF (fFind : Bool) (st : DB) : Except HError ListResp × DB :=
  if fFind then (Except.error (HError.internal "store failure"), st) else
  (Except.ok { ok := true,
               items := (get_documents st.challenge (fun c => c.is_active == some true) 100).map
                 (fun c => { c with flag_hash := none }) }, st)

/-- Embedding of `submit_flag` (src/main.py lines 136-154). The `try` block
covers both `ObjectId` parsing and the challenge `find_one`, so either failure
is remapped to a 400 "Invalid challenge id". The `SolveSchema` constructor
validates `points ≥ 0` (schemas.py line 33) and raises otherwise. -/
def submitFlagF (fFind fCreate : Bool) (p : SubmitFlagRequest) (st : DB) :
    Except HError SubmitResp × DB :=
  match parseObjectId p.challenge_id with
  | none => (Except.error (HError.http 400 "Invalid challenge id"), st)
  | some oid =>
    if fFind then (Except.error (HError.http 400 "Invalid challenge id"), st) else
    match find_one st.challenge (fun c => c.oid == oid) with
    | none => (Except.error (HError.http 404 "Challenge not found"), st)
    | some ch =>
      if ch.is_active.getD true = false then
        (Except.error (HError.http 404 "Challenge not found"), st)
      else if ch.flag_hash ≠ some (sha256 p.flag) then
        (Except.error (HError.http 400 "Incorrect flag"), st)
      else if ch.points.getD 0 < 0 then
        (Except.error (HError.internal "Solve validation failed"), st)
      else if fCreate then (Except.error (HError.internal "store failure"), st) else
      let s : SolveDoc := { oid := freshOid st.nextOid, challenge_id := ch.oid,
                            username := "anonymous", points := ch.points.getD 0 }
      (Except.ok { ok := true, message := "Flag accepted" },
       { st with nextOid := st.nextOid + 1, solve := st.solve ++ [s] })

/-- Points total of one username's solve records, matching the `$sum` of
`$points` over a `$group` bucket. -/
def sumPoints (solves : List SolveDoc) (u : String) : Int :=
  ((solves.filter (fun s => s.username == u)).map (fun s => s.points)).sum

/-- Modelled from the spec: the store adapter `aggregate` (the `database`
module's `db` handle is not under src/) applied to the pipeline built in
`leaderboard` (src/main.py lines 159-163): group solve documents by `username`,
sum their `points` into `score`, sort by `score` descending, limit to 50. -/
def aggregateLeaderboard (solves : List SolveDoc) : List LBItem :=
  let keys := (solves.map (fun s => s.username)).dedup
  let rows := keys.map (fun u => LBItem.mk u (sumPoints solves u))
  (List.insertionSort (fun a b => b.score ≤ a.score) rows).take 50

/-- Embedding of `leaderboard` (src/main.py lines 157-166). -/
def leaderboardF (fAgg : Bool) (st : DB) : Except HError LBResp × DB :=
  if fAgg then (Except.error (HError.internal "store failure"), st) else
  (Except.ok { ok := true, items := aggregateLeaderboard st.solve }, st)

structure RootResp where
  name : String
  status : String
deriving Repr, DecidableEq

/-- Embedding of `read_root` (src/main.py lines 48-50). -/
def read_root : RootResp := { name := "MANGESTIC CTF", status := "ok" }

structure TestResp where
  backend : String
  database : String
  database_url : Option String
  database_name : Option String
  connection_status : String
  collections : List String
deriving Repr, DecidableEq

/-- Embedding of `test_database` (src/main.py lines 53-79), with the status
strings abbreviated to their words (the source decorates them with emoji).
`dbAvail` stands for `db is not None` (the handle comes from the `database`
module, which is not under src/), `urlSet` for the `DATABASE_URL` environment
variable being set, and `fList` is the fault flag for the
`list_collection_names` store call, whose failure the handler catches inline
and reports in the `database` field. -/
def test_database (dbAvail urlSet fList : Bool) (dbName : String) (cols : List String) :
    Except HError TestResp :=
  if dbAvail then
    if fList then
      Except.ok { backend := "Running", database := "Connected but Error",
                  database_url := some (if urlSet then "Set" else "Not Set"),
                  database_name := some dbName, connection_status := "Connected",
                  collections := [] }
    else
      Except.ok { backend := "Running", database := "Connected & Working",
                  database_url := some (if urlSet then "Set" else "Not Set"),
                  database_name := some dbName, connection_status := "Connected",
                  collections := cols.take 10 }
  else
    Except.ok { backend := "Running", database := "Available but not initialized",
                database_url := none, database_name := none,
                connection_status := "Not Connected", collections := [] }

/-- `register` with no store failure injected. -/
def register (p : RegisterRequest) (st : DB) : Except HError RegisterResp × DB :=
  registerF false false p st

/-- `login` with no store failure injected. -/
def login (p : LoginRequest) (st : DB) : Except HError LoginResp × DB :=
  loginF false p st

/-- `contribute_challenge` with no store failure injected. -/
def contribute_challenge (p : SubmitChallengeRequest) (st : DB) :
    Except HError ContributeResp × DB :=
  contributeF false p st

/-- `list_challenges` with no store failure injected. -/
def list_challenges (st : DB) : Except HError ListResp × DB :=
  listChallengesF false st

/-- `submit_flag` with no store failure injected. -/
def submit_flag (p : SubmitFlagRequest) (st : DB) : Except HError SubmitResp × DB :=
  submitFlagF false false p st

/-- `leaderboard` with no store failure injected. -/
def leaderboard (st : DB) : Except HError LBResp × DB :=
  leaderboardF false st

/-! ## Claim theorems -/

/-- C6: the hashing utility is a total deterministic function over all strings:
hashing the same string twice yields the same digest, and every digest is a
fixed-length (64 character) lowercase hexadecimal string; there are no error
conditions (the embedding is a total function by construction). -/
theorem C6_sha256_deterministic_fixed_hex (s t : String) :
    (s = t → sha256 s = sha256 t) ∧
    (sha256 s).length = 64 ∧
    ∀ c ∈ (sha256 s).data, isLowerHexDigit c = true :=
  ⟨fun h => h ▸ rfl, sha256_length s, sha256_chars_hex s⟩

/-- Witness for C6 at the concrete password of the spec's end-to-end
scenario. -/
theorem C6_sha256_witness :
    sha256 "pw123" = sha256 "pw123" ∧ (sha256 "pw123").length = 64 :=
  ⟨(C6_sha256_deterministic_fixed_hex "pw123" "pw123").1 rfl,
   (C6_sha256_deterministic_fixed_hex "pw123" "pw123").2.1⟩

/-- C2: registration fails with a 400 conflict and stores nothing when some
stored user already has the submitted username or the submitted email;
otherwise it appends exactly one user document carrying the password digest and
returns its identifier. -/
theorem C2_register_conflict (p : RegisterRequest) (st : DB) :
    ((∃ u ∈ st.user, u.username = p.username ∨ u.email = p.email) →
      (register p st).1 = Except.error (HError.http 400 "Username or email already exists") ∧
      (register p st).2 = st) ∧
    ((∀ u ∈ st.user, u.username ≠ p.username ∧ u.email ≠ p.email) →
      (register p st).2.user = st.user ++
        [{ oid := freshOid st.nextOid, username := p.username, email := p.email,
           password_hash := sha256 p.password, bio := none, avatar_url := none }] ∧
      (register p st).1 = Except.ok { ok := true, user_id := freshOid st.nextOid } ∧
      (register p st).2.challenge = st.challenge ∧
      (register p st).2.solve = st.solve) := by
  constructor
  · rintro ⟨u, hu, hcase⟩
    have hfind : find_one st.user
        (fun u => u.username == p.username || u.email == p.email) ≠ none := by
      intro hnone
      rw [find_one, List.find?_eq_none] at hnone
      have := hnone u hu
      simp only [Bool.or_eq_true, beq_iff_eq] at this
      rcases hcase with h | h
      · exact this (Or.inl h)
      · exact this (Or.inr h)
    rcases hsome : find_one st.user
        (fun u => u.username == p.username || u.email == p.email) with _ | v
    · exact absurd hsome hfind
    · simp [register, registerF, hsome]
  · intro hfresh
    have hnone : find_one st.user
        (fun u => u.username == p.username || u.email == p.email) = none := by
      rw [find_one, List.find?_eq_none]
      intro u hu
      have := hfresh u hu
      simp only [Bool.or_eq_true, beq_iff_eq, not_or]
      exact ⟨this.1, this.2⟩
    simp [register, registerF, hnone]

/-- Witness for C2: with `alice` registered, re-registering the username with a
fresh email conflicts, and a fresh pair succeeds. -/
theorem C2_register_witness :
    (register ⟨"alice", "b@x.io", "pw"⟩
        ⟨1, [⟨"000000000000000000000000", "alice", "a@x.io", sha256 "pw123", none, none⟩], [], []⟩).1 =
      Except.error (HError.http 400 "Username or email already exists") ∧
    (register ⟨"bob", "b@x.io", "pw"⟩
        ⟨1, [⟨"000000000000000000000000", "alice", "a@x.io", sha256 "pw123", none, none⟩], [], []⟩).2.user =
      [⟨"000000000000000000000000", "alice", "a@x.io", sha256 "pw123", none, none⟩] ++
      [⟨freshOid 1, "bob", "b@x.io", sha256 "pw", none, none⟩] :=
  ⟨((C2_register_conflict ⟨"alice", "b@x.io", "pw"⟩
      ⟨1, [⟨"000000000000000000000000", "alice", "a@x.io", sha256 "pw123", none, none⟩], [], []⟩).1
      ⟨⟨"000000000000000000000000", "alice", "a@x.io", sha256 "pw123", none, none⟩,
        by simp, Or.inl rfl⟩).1,
   ((C2_register_conflict ⟨"bob", "b@x.io", "pw"⟩
      ⟨1, [⟨"000000000000000000000000", "alice", "a@x.io", sha256 "pw123", none, none⟩], [], []⟩).2
      (by intro u hu; simp only [List.mem_singleton] at hu; subst hu; exact ⟨by decide, by decide⟩)).1⟩

/-- C3: login succeeds with the submitted username exactly when some stored
user matches both the username and the password digest; otherwise it fails with
the one fixed 401 response, identical whether the username is absent or the
digest mismatches, and the store is never modified. -/
theorem C3_login_iff (p : LoginRequest) (st : DB) :
    ((∃ u ∈ st.user, u.username = p.username ∧ u.password_hash = sha256 p.password) ↔
      (login p st).1 = Except.ok { ok := true, username := p.username }) ∧
    ((∀ u ∈ st.user, ¬(u.username = p.username ∧ u.password_hash = sha256 p.password)) →
      (login p st).1 = Except.error (HError.http 401 "Invalid credentials")) ∧
    (login p st).2 = st := by
  refine ⟨⟨fun hex => ?_, fun hok => ?_⟩, fun hnomatch => ?_, ?_⟩
  · rcases hex with ⟨u, hu, h1, h2⟩
    rcases hsome : find_one st.user
        (fun u => u.username == p.username && u.password_hash == sha256 p.password) with _ | v
    · rw [find_one, List.find?_eq_none] at hsome
      have := hsome u hu
      simp only [Bool.and_eq_true, beq_iff_eq] at this
      exact absurd ⟨h1, h2⟩ this
    · have hv := List.find?_some hsome
      simp only [Bool.and_eq_true, beq_iff_eq] at hv
      simp [login, loginF, hsome, hv.1]
  · rcases hsome : find_one st.user
        (fun u => u.username == p.username && u.password_hash == sha256 p.password) with _ | v
    · simp [login, loginF, hsome] at hok
    · have hv := List.find?_some hsome
      simp only [Bool.and_eq_true, beq_iff_eq] at hv
      exact ⟨v, List.mem_of_find?_eq_some hsome, hv.1, hv.2⟩
  · have hnone : find_one st.user
        (fun u => u.username == p.username && u.password_hash == sha256 p.password) = none := by
      rw [find_one, List.find?_eq_none]
      intro u hu
      have := hnomatch u hu
      simp only [Bool.and_eq_true, beq_iff_eq]
      exact fun hc => this hc
    simp [login, loginF, hnone]
  · rcases hsome : find_one st.user
        (fun u => u.username == p.username && u.password_hash == sha256 p.password) with _ | v <;>
      simp [login, loginF, hsome]

/-- Witness for C3: with `alice` stored, the right password logs in, and a
wrong password draws the same 401 as an unknown username. -/
theorem C3_login_witness :
    (login ⟨"alice", "pw123"⟩
        ⟨1, [⟨"000000000000000000000000", "alice", "a@x.io", sha256 "pw123", none, none⟩], [], []⟩).1 =
      Except.ok { ok := true, username := "alice" } ∧
    (login ⟨"alice", "bad"⟩
        ⟨1, [⟨"000000000000000000000000", "alice", "a@x.io", sha256 "pw123", none, none⟩], [], []⟩).1 =
      Except.error (HError.http 401 "Invalid credentials") ∧
    (login ⟨"carol", "pw123"⟩
        ⟨1, [⟨"000000000000000000000000", "alice", "a@x.io", sha256 "pw123", none, none⟩], [], []⟩).1 =
      Except.error (HError.http 401 "Invalid credentials") :=
  ⟨(C3_login_iff ⟨"alice", "pw123"⟩
      ⟨1, [⟨"000000000000000000000000", "alice", "a@x.io", sha256 "pw123", none, none⟩], [], []⟩).1.mp
      ⟨⟨"000000000000000000000000", "alice", "a@x.io", sha256 "pw123", none, none⟩,
        by simp, rfl, rfl⟩,
   (C3_login_iff ⟨"alice", "bad"⟩
      ⟨1, [⟨"000000000000000000000000", "alice", "a@x.io", sha256 "pw123", none, none⟩], [], []⟩).2.1
      (by
        intro u hu
        simp only [List.mem_singleton] at hu
        subst hu
        rintro ⟨-, h2⟩
        exact absurd h2 (by decide)),
   (C3_login_iff ⟨"carol", "pw123"⟩
      ⟨1, [⟨"000000000000000000000000", "alice", "a@x.io", sha256 "pw123", none, none⟩], [], []⟩).2.1
      (by
        intro u hu
        simp only [List.mem_singleton] at hu
        subst hu
        rintro ⟨h1, -⟩
        exact absurd h1 (by decide))⟩

/-- C1: for every submit-flag request, (1) an existing, active challenge whose
stored `flag_hash` equals the digest of the submitted flag (and whose stored
points conform to the schema's `points ≥ 0`) yields success and appends exactly
one solve document carrying the challenge's points as read at lookup time;
(2) a digest mismatch yields a 400 incorrect-flag error and leaves the store
unchanged; (3) a nonexistent or inactive challenge yields a 404 and leaves the
store unchanged; (4) a malformed challenge id yields a 400 and leaves the store
unchanged. -/
theorem C1_submit_flag_cases (p : SubmitFlagRequest) (st : DB) :
    (∀ oid ch, parseObjectId p.challenge_id = some oid →
      find_one st.challenge (fun c => c.oid == oid) = some ch →
      ch.is_active.getD true = true →
      ch.flag_hash = some (sha256 p.flag) →
      0 ≤ ch.points.getD 0 →
      (submit_flag p st).2.solve = st.solve ++
        [{ oid := freshOid st.nextOid, challenge_id := ch.oid,
           username := "anonymous", points := ch.points.getD 0 }] ∧
      (submit_flag p st).1 = Except.ok { ok := true, message := "Flag accepted" } ∧
      (submit_flag p st).2.user = st.user ∧
      (submit_flag p st).2.challenge = st.challenge) ∧
    (∀ oid ch, parseObjectId p.challenge_id = some oid →
      find_one st.challenge (fun c => c.oid == oid) = some ch →
      ch.is_active.getD true = true →
      ch.flag_hash ≠ some (sha256 p.flag) →
      (submit_flag p st).1 = Except.error (HError.http 400 "Incorrect flag") ∧
      (submit_flag p st).2 = st) ∧
    (∀ oid, parseObjectId p.challenge_id = some oid →
      (find_one st.challenge (fun c => c.oid == oid) = none ∨
       ∃ ch, find_one st.challenge (fun c => c.oid == oid) = some ch ∧
         ch.is_active.getD true = false) →
      (submit_flag p st).1 = Except.error (HError.http 404 "Challenge not found") ∧
      (submit_flag p st).2 = st) ∧
    (parseObjectId p.challenge_id = none →
      (submit_flag p st).1 = Except.error (HError.http 400 "Invalid challenge id") ∧
      (submit_flag p st).2 = st) := by
  refine ⟨?_, ?_, ?_, ?_⟩
  · intro oid ch hparse hfind hact hflag hpts
    have hnotlt : ¬ ch.points.getD 0 < 0 := not_lt.mpr hpts
    simp [submit_flag, submitFlagF, hparse, hfind, hact, hflag, hnotlt]
  · intro oid ch hparse hfind hact hflag
    simp [submit_flag, submitFlagF, hparse, hfind, hact, hflag]
  · intro oid hparse hcase
    rcases hcase with hnone | ⟨ch, hfind, hina⟩
    · simp [submit_flag, submitFlagF, hparse, hnone]
    · simp [submit_flag, submitFlagF, hparse, hfind, hina]
  · intro hparse
    simp [submit_flag, submitFlagF, hparse]

/-- Witness for C1 on the spec's end-to-end scenario: one active 100-point
challenge with flag `flag{abc}`; the four branches are exercised by the correct
flag, a wrong flag, an unknown id, and a malformed id. -/
theorem C1_submit_flag_witness :
    (submit_flag ⟨"000000000000000000000000", "flag{abc}"⟩
        ⟨1, [], [⟨"000000000000000000000000", some "Warmup", some "d",
          some (sha256 "flag{abc}"), some 100, some "anonymous", none, some true⟩], []⟩).2.solve =
      [] ++ [{ oid := freshOid 1, challenge_id := "000000000000000000000000",
               username := "anonymous", points := (some (100 : Int)).getD 0 }] ∧
    (submit_flag ⟨"000000000000000000000000", "flag{bad}"⟩
        ⟨1, [], [⟨"000000000000000000000000", some "Warmup", some "d",
          some (sha256 "flag{abc}"), some 100, some "anonymous", none, some true⟩], []⟩).1 =
      Except.error (HError.http 400 "Incorrect flag") ∧
    (submit_flag ⟨"ffffffffffffffffffffffff", "flag{abc}"⟩
        ⟨1, [], [⟨"000000000000000000000000", some "Warmup", some "d",
          some (sha256 "flag{abc}"), some 100, some "anonymous", none, some true⟩], []⟩).1 =
      Except.error (HError.http 404 "Challenge not found") ∧
    (submit_flag ⟨"zz", "flag{abc}"⟩
        ⟨1, [], [⟨"000000000000000000000000", some "Warmup", some "d",
          some (sha256 "flag{abc}"), some 100, some "anonymous", none, some true⟩], []⟩).1 =
      Except.error (HError.http 400 "Invalid challenge id") :=
  ⟨((C1_submit_flag_cases ⟨"000000000000000000000000", "flag{abc}"⟩
      ⟨1, [], [⟨"000000000000000000000000", some "Warmup", some "d",
        some (sha256 "flag{abc}"), some 100, some "anonymous", none, some true⟩], []⟩).1
      "000000000000000000000000"
      ⟨"000000000000000000000000", some "Warmup", some "d",
        some (sha256 "flag{abc}"), some 100, some "anonymous", none, some true⟩
      (by decide) (by simp [find_one]) rfl rfl (by decide)).1,
   ((C1_submit_flag_cases ⟨"000000000000000000000000", "flag{bad}"⟩
      ⟨1, [], [⟨"000000000000000000000000", some "Warmup", some "d",
        some (sha256 "flag{abc}"), some 100, some "anonymous", none, some true⟩], []⟩).2.1
      "000000000000000000000000"
      ⟨"000000000000000000000000", some "Warmup", some "d",
        some (sha256 "flag{abc}"), some 100, some "anonymous", none, some true⟩
      (by decide) (by simp [find_one]) rfl (by decide)).1,
   ((C1_submit_flag_cases ⟨"ffffffffffffffffffffffff", "flag{abc}"⟩
      ⟨1, [], [⟨"000000000000000000000000", some "Warmup", some "d",
        some (sha256 "flag{abc}"), some 100, some "anonymous", none, some true⟩], []⟩).2.2.1
      "ffffffffffffffffffffffff"
      (by decide) (Or.inl (by decide))).1,
   ((C1_submit_flag_cases ⟨"zz", "flag{abc}"⟩
      ⟨1, [], [⟨"000000000000000000000000", some "Warmup", some "d",
        some (sha256 "flag{abc}"), some 100, some "anonymous", none, some true⟩], []⟩).2.2.2
      (by decide)).1⟩

/-- C4: for every store state, the list-challenges response holds at most 100
items, every one of them an active challenge, and none of them carries a
`flag_hash` value (the handler pops the field). -/
theorem C4_list_challenges_active_nohash (st : DB) :
    ∃ r, (list_challenges st).1 = Except.ok r ∧
      r.items.length ≤ 100 ∧
      ∀ it ∈ r.items, it.is_active = some true ∧ it.flag_hash = none := by
  refine ⟨{ ok := true,
            items := (get_documents st.challenge (fun c => c.is_active == some true) 100).map
              (fun c => { c with flag_hash := none }) }, rfl, ?_, ?_⟩
  · rw [List.length_map, get_documents]
    exact List.length_take_le 100 _
  · intro it hit
    rw [List.mem_map] at hit
    obtain ⟨c, hc, rfl⟩ := hit
    rw [get_documents] at hc
    have hc' := List.of_mem_filter (List.mem_of_mem_take hc)
    simp only [beq_iff_eq] at hc'
    exact ⟨hc', rfl⟩

/-- Witness for C4: a state with one active and one inactive challenge; the
active item comes back stripped of its `flag_hash` and still active. -/
theorem C4_list_challenges_witness :
    (ChallengeDoc.mk "000000000000000000000000" (some "Warmup") (some "d")
        none (some 100) (some "anonymous") none (some true)).is_active = some true ∧
    (ChallengeDoc.mk "000000000000000000000000" (some "Warmup") (some "d")
        none (some 100) (some "anonymous") none (some true)).flag_hash = none := by
  obtain ⟨r, hr, hlen, hall⟩ := C4_list_challenges_active_nohash
    ⟨2, [], [⟨"000000000000000000000000", some "Warmup", some "d",
              some (sha256 "flag{abc}"), some 100, some "anonymous", none, some true⟩,
             ⟨"000000000000000000000001", some "Old", some "d",
              some (sha256 "flag{old}"), some 10, some "anonymous", none, some false⟩], []⟩
  have hcomp : (list_challenges
      ⟨2, [], [⟨"000000000000000000000000", some "Warmup", some "d",
                some (sha256 "flag{abc}"), some 100, some "anonymous", none, some true⟩,
               ⟨"000000000000000000000001", some "Old", some "d",
                some (sha256 "flag{old}"), some 10, some "anonymous", none, some false⟩], []⟩).1 =
      Except.ok { ok := true,
                  items := [⟨"000000000000000000000000", some "Warmup", some "d",
                             none, some 100, some "anonymous", none, some true⟩] } := by
    rfl
  rw [hcomp] at hr
  have hreq := Except.ok.inj hr
  exact hall _ (by rw [← hreq]; simp)

/-- C5: for every state of the solve collection, the leaderboard lists entries
whose score is the sum of the points of that username's solve documents, sorted
by descending score, truncated to at most 50 entries; every listed username has
at least one solve document, so zero-solve usernames never appear. -/
theorem C5_leaderboard_grouped_sorted (st : DB) :
    ∃ r, (leaderboard st).1 = Except.ok r ∧
      (∀ e ∈ r.items, e.score = sumPoints st.solve e.username ∧
        ∃ s ∈ st.solve, s.username = e.username) ∧
      r.items.Pairwise (fun a b => b.score ≤ a.score) ∧
      r.items.length ≤ 50 := by
  refine ⟨{ ok := true, items := aggregateLeaderboard st.solve }, rfl, ?_, ?_, ?_⟩
  · intro e he
    simp only [aggregateLeaderboard] at he
    have h1 := List.mem_of_mem_take he
    have h2 := (List.Perm.mem_iff (List.perm_insertionSort _ _)).mp h1
    rw [List.mem_map] at h2
    obtain ⟨u, hu, rfl⟩ := h2
    refine ⟨rfl, ?_⟩
    rw [List.mem_dedup, List.mem_map] at hu
    obtain ⟨s, hs, rfl⟩ := hu
    exact ⟨s, hs, rfl⟩
  · simp only [aggregateLeaderboard]
    haveI : IsTotal LBItem (fun a b => b.score ≤ a.score) :=
      ⟨fun a b => le_total b.score a.score⟩
    haveI : IsTrans LBItem (fun a b => b.score ≤ a.score) :=
      ⟨fun _ _ _ hab hbc => le_trans hbc hab⟩
    exact List.Pairwise.sublist (List.take_sublist 50 _)
      (List.sorted_insertionSort (fun a b : LBItem => b.score ≤ a.score) _)
  · simp only [aggregateLeaderboard]
    exact List.length_take_le 50 _

/-- Witness for C5 on a three-solve state: `alice` totals 120 and the output is
the computed two-entry board. -/
theorem C5_leaderboard_witness :
    (LBItem.mk "alice" 120).score =
      sumPoints [⟨"a", "c1", "alice", 100⟩, ⟨"b", "c2", "bob", 30⟩,
                 ⟨"c", "c1", "alice", 20⟩] (LBItem.mk "alice" 120).username := by
  obtain ⟨r, hr, hall, hsort, hlen⟩ := C5_leaderboard_grouped_sorted
    ⟨0, [], [], [⟨"a", "c1", "alice", 100⟩, ⟨"b", "c2", "bob", 30⟩,
                 ⟨"c", "c1", "alice", 20⟩]⟩
  have hcomp : (leaderboard
      ⟨0, [], [], [⟨"a", "c1", "alice", 100⟩, ⟨"b", "c2", "bob", 30⟩,
                   ⟨"c", "c1", "alice", 20⟩]⟩).1 =
      Except.ok { ok := true,
                  items := [⟨"alice", 120⟩, ⟨"bob", 30⟩] } := by rfl
  rw [hcomp] at hr
  have hreq := Except.ok.inj hr
  exact (hall (LBItem.mk "alice" 120) (by rw [← hreq]; simp)).1

/-- C8: a contribute-challenge request with nonnegative points appends exactly
one challenge document whose `flag_hash` is the digest of the submitted flag
(the plaintext flag appears in no stored field), whose `is_active` is true and
whose `author` is "anonymous"; negative points make the `ChallengeSchema`
validation raise, so the request fails and nothing is stored. -/
theorem C8_contribute_challenge_stored_shape (p : SubmitChallengeRequest) (st : DB) :
    (0 ≤ p.points →
      (contribute_challenge p st).2.challenge = st.challenge ++
        [{ oid := freshOid st.nextOid, title := some p.title,
           description := some p.description, flag_hash := some (sha256 p.flag),
           points := some p.points, author := some "anonymous", tags := p.tags,
           is_active := some true }] ∧
      (contribute_challenge p st).1 =
        Except.ok { ok := true, challenge_id := freshOid st.nextOid } ∧
      (contribute_challenge p st).2.user = st.user ∧
      (contribute_challenge p st).2.solve = st.solve) ∧
    (p.points < 0 →
      (contribute_challenge p st).1 =
        Except.error (HError.internal "Challenge validation failed") ∧
      (contribute_challenge p st).2 = st) := by
  constructor
  · intro h
    have h' : ¬ p.points < 0 := not_lt.mpr h
    simp [contribute_challenge, contributeF, h']
  · intro h
    simp [contribute_challenge, contributeF, h]

/-- Witness for C8 at the spec's scenario challenge, plus a negative-points
request that fails. -/
theorem C8_contribute_challenge_witness :
    (contribute_challenge ⟨"Warmup", "d", "flag{abc}", 100, none⟩ ⟨0, [], [], []⟩).2.challenge =
      [] ++ [{ oid := freshOid 0, title := some "Warmup", description := some "d",
               flag_hash := some (sha256 "flag{abc}"), points := some 100,
               author := some "anonymous", tags := none, is_active := some true }] ∧
    (contribute_challenge ⟨"Bad", "d", "flag{x}", -5, none⟩ ⟨0, [], [], []⟩).1 =
      Except.error (HError.internal "Challenge validation failed") :=
  ⟨((C8_contribute_challenge_stored_shape ⟨"Warmup", "d", "flag{abc}", 100, none⟩
      ⟨0, [], [], []⟩).1 (by decide)).1,
   ((C8_contribute_challenge_stored_shape ⟨"Bad", "d", "flag{x}", -5, none⟩
      ⟨0, [], [], []⟩).2 (by decide)).1⟩

/-- C10: in submit-flag, a stored challenge document lacking `is_active` is
treated as active (the handler proceeds to the flag comparison and answers
according to it, never 404), and one lacking `points` yields a solve document
carrying 0 points. -/
theorem C10_missing_field_defaults (p : SubmitFlagRequest) (st : DB)
    (oid : String) (ch : ChallengeDoc) :
    (parseObjectId p.challenge_id = some oid →
      find_one st.challenge (fun c => c.oid == oid) = some ch →
      ch.is_active = none →
      ((ch.flag_hash ≠ some (sha256 p.flag) →
        (submit_flag p st).1 = Except.error (HError.http 400 "Incorrect flag")) ∧
       (ch.flag_hash = some (sha256 p.flag) → 0 ≤ ch.points.getD 0 →
        (submit_flag p st).1 = Except.ok { ok := true, message := "Flag accepted" }))) ∧
    (parseObjectId p.challenge_id = some oid →
      find_one st.challenge (fun c => c.oid == oid) = some ch →
      ch.is_active.getD true = true →
      ch.flag_hash = some (sha256 p.flag) →
      ch.points = none →
      (submit_flag p st).2.solve = st.solve ++
        [{ oid := freshOid st.nextOid, challenge_id := ch.oid,
           username := "anonymous", points := 0 }]) := by
  constructor
  · intro hparse hfind hact
    constructor
    · intro hflag
      simp [submit_flag, submitFlagF, hparse, hfind, hact, hflag]
    · intro hflag hpts
      have h' : ¬ ch.points.getD 0 < 0 := not_lt.mpr hpts
      simp [submit_flag, submitFlagF, hparse, hfind, hact, hflag, h']
  · intro hparse hfind hact hflag hpts
    have h0 : ch.points.getD 0 = 0 := by rw [hpts]; rfl
    have h' : ¬ ch.points.getD 0 < 0 := by rw [h0]; decide
    simp [submit_flag, submitFlagF, hparse, hfind, hact, hflag, h', h0]

/-- Witness for C10: a challenge document lacking both `is_active` and
`points`; the wrong flag is rejected as incorrect (not 404), the right flag is
accepted and the recorded solve carries 0 points. -/
theorem C10_missing_field_defaults_witness :
    (submit_flag ⟨"000000000000000000000000", "flag{bad}"⟩
        ⟨1, [], [⟨"000000000000000000000000", some "Warmup", some "d",
          some (sha256 "flag{abc}"), none, some "anonymous", none, none⟩], []⟩).1 =
      Except.error (HError.http 400 "Incorrect flag") ∧
    (submit_flag ⟨"000000000000000000000000", "flag{abc}"⟩
        ⟨1, [], [⟨"000000000000000000000000", some "Warmup", some "d",
          some (sha256 "flag{abc}"), none, some "anonymous", none, none⟩], []⟩).1 =
      Except.ok { ok := true, message := "Flag accepted" } ∧
    (submit_flag ⟨"000000000000000000000000", "flag{abc}"⟩
        ⟨1, [], [⟨"000000000000000000000000", some "Warmup", some "d",
          some (sha256 "flag{abc}"), none, some "anonymous", none, none⟩], []⟩).2.solve =
      [] ++ [{ oid := freshOid 1, challenge_id := "000000000000000000000000",
               username := "anonymous", points := 0 }] :=
  ⟨((C10_missing_field_defaults ⟨"000000000000000000000000", "flag{bad}"⟩
      ⟨1, [], [⟨"000000000000000000000000", some "Warmup", some "d",
        some (sha256 "flag{abc}"), none, some "anonymous", none, none⟩], []⟩
      "000000000000000000000000"
      ⟨"000000000000000000000000", some "Warmup", some "d",
        some (sha256 "flag{abc}"), none, some "anonymous", none, none⟩).1
      (by decide) (by simp [find_one]) rfl).1 (by decide),
   ((C10_missing_field_defaults ⟨"000000000000000000000000", "flag{abc}"⟩
      ⟨1, [], [⟨"000000000000000000000000", some "Warmup", some "d",
        some (sha256 "flag{abc}"), none, some "anonymous", none, none⟩], []⟩
      "000000000000000000000000"
      ⟨"000000000000000000000000", some "Warmup", some "d",
        some (sha256 "flag{abc}"), none, some "anonymous", none, none⟩).1
      (by decide) (by simp [find_one]) rfl).2 rfl (by decide),
   (C10_missing_field_defaults ⟨"000000000000000000000000", "flag{abc}"⟩
      ⟨1, [], [⟨"000000000000000000000000", some "Warmup", some "d",
        some (sha256 "flag{abc}"), none, some "anonymous", none, none⟩], []⟩
      "000000000000000000000000"
      ⟨"000000000000000000000000", some "Warmup", some "d",
        some (sha256 "flag{abc}"), none, some "anonymous", none, none⟩).2
      (by decide) (by simp [find_one]) rfl rfl rfl⟩

/-- One request step only ever appends documents to the three collections. -/
def appendOnly (st st2 : DB) : Prop :=
  ∃ us cs ss, st2.user = st.user ++ us ∧ st2.challenge = st.challenge ++ cs ∧
    st2.solve = st.solve ++ ss

theorem appendOnly_self (st : DB) : appendOnly st st :=
  ⟨[], [], [], by simp, by simp, by simp⟩

/-- C9: for every endpoint (under any injected store failure) and every
request, the resulting store state extends the previous one: each collection is
the old list with zero or more documents appended, so no document is ever
updated or deleted. The root and diagnostic endpoints take no store state at
all. -/
theorem C9_endpoints_append_only (f1 f2 : Bool) (rp : RegisterRequest)
    (lp : LoginRequest) (cp : SubmitChallengeRequest) (sp : SubmitFlagRequest)
    (st : DB) :
    appendOnly st (registerF f1 f2 rp st).2 ∧
    appendOnly st (loginF f1 lp st).2 ∧
    appendOnly st (contributeF f1 cp st).2 ∧
    appendOnly st (listChallengesF f1 st).2 ∧
    appendOnly st (submitFlagF f1 f2 sp st).2 ∧
    appendOnly st (leaderboardF f1 st).2 := by
  refine ⟨?_, ?_, ?_, ?_, ?_, ?_⟩
  · simp only [registerF]
    split
    · exact appendOnly_self st
    · split
      · exact appendOnly_self st
      · split
        · exact appendOnly_self st
        · exact ⟨[_], [], [], rfl, by simp, by simp⟩
  · simp only [loginF]
    split
    · exact appendOnly_self st
    · split
      · exact appendOnly_self st
      · exact appendOnly_self st
  · simp only [contributeF]
    split
    · exact appendOnly_self st
    · split
      · exact appendOnly_self st
      · exact ⟨[], [_], [], by simp, rfl, by simp⟩
  · simp only [listChallengesF]
    split
    · exact appendOnly_self st
    · exact appendOnly_self st
  · simp only [submitFlagF]
    split
    · exact appendOnly_self st
    · split
      · exact appendOnly_self st
      · split
        · exact appendOnly_self st
        · split
          · exact appendOnly_self st
          · split
            · exact appendOnly_self st
            · split
              · exact appendOnly_self st
              · split
                · exact appendOnly_self st
                · exact ⟨[], [], [_], by simp, by simp, rfl⟩
  · simp only [leaderboardF]
    split
    · exact appendOnly_self st
    · exact appendOnly_self st

/-- Counterexample for C7 as stated: with a well-formed challenge id and a
store failure injected at the challenge lookup, `submit_flag` answers with the
400 "Invalid challenge id" client error — the `try` block around the lookup
catches the store failure — instead of letting it propagate as a generic
internal error. -/
theorem C7_counterexample_lookup_caught :
    (submitFlagF true false ⟨"0123456789abcdef01234567", "x"⟩ ⟨0, [], [], []⟩).1 =
      Except.error (HError.http 400 "Invalid challenge id") := rfl

/-- C7 amended: a store failure surfaces as a generic internal error at every
store call site except two: the challenge lookup in submit-flag, whose failure
the handler's `try` block catches and remaps to the 400 invalid-challenge-id
client error, and the diagnostic endpoint, which catches the failure of its
collection listing inline and still answers normally. -/
theorem C7_store_failure_propagation (b dbAvail urlSet : Bool)
    (rp : RegisterRequest) (lp : LoginRequest) (cp : SubmitChallengeRequest)
    (sp : SubmitFlagRequest) (st : DB) (dbName : String) (cols : List String) :
    (registerF true b rp st).1 = Except.error (HError.internal "store failure") ∧
    (find_one st.user (fun u => u.username == rp.username || u.email == rp.email) = none →
      (registerF false true rp st).1 = Except.error (HError.internal "store failure")) ∧
    (loginF true lp st).1 = Except.error (HError.internal "store failure") ∧
    (0 ≤ cp.points →
      (contributeF true cp st).1 = Except.error (HError.internal "store failure")) ∧
    (listChallengesF true st).1 = Except.error (HError.internal "store failure") ∧
    (leaderboardF true st).1 = Except.error (HError.internal "store failure") ∧
    (∀ oid, parseObjectId sp.challenge_id = some oid →
      (submitFlagF true b sp st).1 =
        Except.error (HError.http 400 "Invalid challenge id")) ∧
    (∀ oid ch, parseObjectId sp.challenge_id = some oid →
      find_one st.challenge (fun c => c.oid == oid) = some ch →
      ch.is_active.getD true = true →
      ch.flag_hash = some (sha256 sp.flag) →
      0 ≤ ch.points.getD 0 →
      (submitFlagF false true sp st).1 =
        Except.error (HError.internal "store failure")) ∧
    (∃ resp, test_database dbAvail urlSet true dbName cols = Except.ok resp) := by
  refine ⟨by simp [registerF], ?_, by simp [loginF], ?_, by simp [listChallengesF],
    by simp [leaderboardF], ?_, ?_, ?_⟩
  · intro hnone
    simp [registerF, hnone]
  · intro h
    have h' : ¬ cp.points < 0 := not_lt.mpr h
    simp [contributeF, h']
  · intro oid hparse
    simp [submitFlagF, hparse]
  · intro oid ch hparse hfind hact hflag hpts
    have h' : ¬ ch.points.getD 0 < 0 := not_lt.mpr hpts
    simp [submitFlagF, hparse, hfind, hact, hflag, h']
  · rcases dbAvail with _ | _ <;> simp [test_database]

/-- Witness for the amended C7 at concrete inputs: a create-site failure in
register on an empty store, a create-site failure in submit-flag on a matching
active challenge, and the diagnostic endpoint still answering under a listing
failure. -/
theorem C7_store_failure_witness :
    (registerF false true ⟨"alice", "a@x.io", "pw123"⟩ ⟨0, [], [], []⟩).1 =
      Except.error (HError.internal "store failure") ∧
    (submitFlagF false true ⟨"000000000000000000000000", "flag{abc}"⟩
        ⟨1, [], [⟨"000000000000000000000000", some "Warmup", some "d",
          some (sha256 "flag{abc}"), some 100, some "anonymous", none, some true⟩], []⟩).1 =
      Except.error (HError.internal "store failure") ∧
    test_database true true true "ctf" ["user", "challenge", "solve"] =
      Except.ok { backend := "Running", database := "Connected but Error",
                  database_url := some "Set", database_name := some "ctf",
                  connection_status := "Connected", collections := [] } := by
  refine ⟨(C7_store_failure_propagation false true true ⟨"alice", "a@x.io", "pw123"⟩
      ⟨"u", "p"⟩ ⟨"t", "d", "f", 0, none⟩ ⟨"zz", "f"⟩ ⟨0, [], [], []⟩ "ctf" []).2.1
      (by simp [find_one]), ?_, ?_⟩
  · exact (C7_store_failure_propagation false true true ⟨"u", "e", "p"⟩ ⟨"u", "p"⟩
      ⟨"t", "d", "f", 0, none⟩ ⟨"000000000000000000000000", "flag{abc}"⟩
      ⟨1, [], [⟨"000000000000000000000000", some "Warmup", some "d",
        some (sha256 "flag{abc}"), some 100, some "anonymous", none, some true⟩], []⟩
      "ctf" []).2.2.2.2.2.2.2.1
      "000000000000000000000000"
      ⟨"000000000000000000000000", some "Warmup", some "d",
        some (sha256 "flag{abc}"), some 100, some "anonymous", none, some true⟩
      (by decide) (by simp [find_one]) rfl rfl (by decide)
  · obtain ⟨resp, hresp⟩ := (C7_store_failure_propagation false true true
      ⟨"u", "e", "p"⟩ ⟨"u", "p"⟩ ⟨"t", "d", "f", 0, none⟩ ⟨"zz", "f"⟩
      ⟨0, [], [], []⟩ "ctf" ["user", "challenge", "solve"]).2.2.2.2.2.2.2.2
    rw [hresp]
    have : resp = { backend := "Running", database := "Connected but Error",
                    database_url := some "Set", database_name := some "ctf",
                    connection_status := "Connected", collections := [] } := by
      have hcomp : test_database true true true "ctf" ["user", "challenge", "solve"] =
        Except.ok { backend := "Running", database := "Connected but Error",
                    database_url := some "Set", database_name := some "ctf",
                    connection_status := "Connected", collections := [] } := rfl
      rw [hcomp] at hresp
      exact (Except.ok.inj hresp).symm
    rw [this]
